import Mathlib

/-!
Verification of the tuscan wrapper shims (`src/tuscan/compiler_wrapper.c` and
`src/tuscan/tool_wrapper.c`) against their natural-language specification.

The two C programs are straight-line: obtain a scratch-file name, open the
scratch file, write the shadowed tool's name plus a newline, close the file,
then replace the process image with the toolchain tool, forwarding all
arguments except position 0.  We embed each program as a pure function from a
"world" (the outcomes of the system primitives it calls: getrandom, fopen /
mkstemp, fprintf / dprintf, fclose / close, execv) to a run result: the trace
of events it performed, its outcome (exit status, or successful image
replacement), the scratch record it created, and whether it silently
overwrote a pre-existing file.  C strings handed to execv are modelled as
`Option String` (`none` is the NULL pointer), machine integers as `Nat`/`Int`
with explicit reduction modulo 2^32.
-/

namespace Tuscan

/-- Two's-complement reading of a machine word as a signed 32-bit value,
modelling the C cast `(int)(*buf)` of an `unsigned` in
`compiler_wrapper.c` line 40. -/
def toInt32 (w : Nat) : Int :=
  if w % 2 ^ 32 < 2 ^ 31 then ((w % 2 ^ 32 : Nat) : Int)
  else ((w % 2 ^ 32 : Nat) : Int) - 2 ^ 32

/-- The C library `abs` on 32-bit `int`: the absolute value, except that the
most negative value has no positive counterpart and comes back unchanged on
the targets this code builds for. -/
def cAbs (i : Int) : Int :=
  if i = -(2 ^ 31) then -(2 ^ 31) else |i|

/-- The character `'0' + d` produced for one decimal digit by `sprintf`. -/
def digitChar (d : Nat) : Char := Char.ofNat (48 + d)

/-- Fuel-driven decimal rendering of a natural number, most significant digit
first; the fuel only bounds recursion depth and is irrelevant once it exceeds
the value. -/
def natDigitsAux : Nat → Nat → List Char
  | 0, _ => []
  | fuel + 1, n =>
    if n < 10 then [digitChar n]
    else natDigitsAux fuel (n / 10) ++ [digitChar (n % 10)]

/-- Decimal digits of `n`, as `sprintf` with `%u` would print them. -/
def natDigits (n : Nat) : List Char := natDigitsAux (n + 1) n

/-- The bytes `sprintf` stores for `%d` applied to `i` (terminator excluded):
a minus sign when negative, then the decimal digits of the magnitude. -/
def intReprChars (i : Int) : List Char :=
  if i < 0 then '-' :: natDigits i.natAbs else natDigits i.natAbs

/-- The fixed part of the compiler wrapper's scratch-file name
(`"/tmp/tuscan-native-"`, 19 bytes). -/
def nameStem : List Char := "/tmp/tuscan-native-".data

/-- The scratch-file name built by `compiler_wrapper.c` lines 39-40:
`sprintf(f_name, "/tmp/tuscan-native-%d", abs((int)(*buf)))` where `*buf` is
the first random word returned by getrandom. -/
def compilerScratchName (w : Nat) : String :=
  String.mk (nameStem ++ intReprChars (cAbs (toInt32 w)))

/-- The argument vector both wrappers build for execv
(`compiler_wrapper.c` lines 56-59, `tool_wrapper.c` lines 43-46):
a buffer of exactly `argc` pointers, cell 0 set to the toolchain tool and
cells `1..argc-1` copied from `argv` unchanged.  Entries are `Option String`
so that the absence of a NULL pointer is expressible; the loop writes no cell
beyond index `argc - 1` and stores no NULL sentinel. -/
def buildNewArgv (tool : String) (args : List String) : List (Option String) :=
  some tool :: (args.drop 1).map some

/-- execv's precondition on its argument vector, from its contract: the array
of pointers must be terminated by a NULL pointer, i.e. contain a `none`
entry. -/
def execvNullTerm (v : List (Option String)) : Bool := v.contains none

/-- A C string pointer together with whether the storage it points to is
writable: a string literal lives in read-only storage. -/
structure CStr where
  data : String
  writable : Bool
deriving DecidableEq

/-- The template `tool_wrapper.c` line 30 passes to mkstemp: the string
literal `"/tmp/tuscan-native-XXXXXX"`, immutable. -/
def toolTemplate : CStr := ⟨"/tmp/tuscan-native-XXXXXX", false⟩

/-- Result of an mkstemp call: a successfully created file with its name, a
failure return of -1, or a memory fault from storing into read-only
storage. -/
inductive MkstempResult where
  | ok : String → MkstempResult
  | error : MkstempResult
  | fault : MkstempResult
deriving DecidableEq

/-- Model of POSIX `mkstemp(template)`: the template must end in `XXXXXX`;
for each candidate suffix (the list bounds the retry count, as TMP_MAX does)
mkstemp stores the suffix into the template in place — a store that faults
when the template is in read-only storage — and then tries an atomic
exclusive create (`O_CREAT|O_EXCL`) of the resulting name, moving to the next
candidate when the name is already taken. -/
def mkstemp (tmpl : CStr) (candidates : List String) (taken : String → Bool) :
    MkstempResult :=
  let chars := tmpl.data.data
  if !(chars.drop (chars.length - 6) == "XXXXXX".data) then .error
  else if !tmpl.writable then .fault
  else
    let stem := String.mk (chars.take (chars.length - 6))
    match candidates.find? (fun sfx => !taken (stem ++ sfx)) with
    | some sfx => .ok (stem ++ sfx)
    | none => .error

/-- Result of `fopen(name, "w")`: success (recording whether a file with that
name already existed and was silently truncated), or failure. -/
inductive OpenResult where
  | opened : Bool → OpenResult
  | failed : OpenResult
deriving DecidableEq

/-- Model of `fopen(name, "w")` as used by `compiler_wrapper.c` line 43:
creates the file when absent and silently truncates it when present (no
`O_EXCL`); it fails only for environmental reasons (permissions, resources),
never because the name is taken. -/
def fopenW (nameTaken : Bool) (envFail : Bool) : OpenResult :=
  if envFail then .failed else .opened nameTaken

/-- Observable steps of one wrapper invocation, in program order. -/
inductive Event where
  | randomOk : Event
  | allocOk : String → Event
  | writeAttempt : String → Bool → Event
  | closeOk : Event
  | execCall : String → List (Option String) → Event
  | reportError : String → Event
deriving DecidableEq

/-- How the invocation ends: the process exits with a status, or its image is
replaced by the given program with the given argument vector. -/
inductive Outcome where
  | exited : Nat → Outcome
  | replaced : String → List (Option String) → Outcome
deriving DecidableEq

/-- The generation-time constants baked into one wrapper instance. -/
structure Config where
  toolchain_tool_path : String
  native_program : String
deriving DecidableEq

/-- Everything observable about one invocation: the event trace, the outcome,
the scratch record (name and final content) when one was created, and whether
its creation silently overwrote an existing file. -/
structure RunResult where
  trace : List Event
  outcome : Outcome
  record : Option (String × String)
  overwroteExisting : Bool
deriving DecidableEq

/-- Environment of one `compiler_wrapper.c` invocation: whether getrandom
fails, the first random word when it succeeds, whether fopen fails
environmentally, whether the chosen scratch name already exists, and whether
fprintf, fclose and execv fail. -/
structure CWorld where
  randFail : Bool
  randWord : Nat
  fopenEnvFail : Bool
  fileExisted : Bool
  writeFail : Bool
  closeFail : Bool
  execFail : Bool

/-- Environment of one `tool_wrapper.c` invocation: the outcome of the
mkstemp call (failure flag and the name chosen on success), and whether
dprintf, close and execv fail.  The success case is kept as a parameter so
the control flow after the call can be stated; whether it is reachable under
a faithful mkstemp model is settled separately. -/
structure TWorld where
  allocFail : Bool
  allocName : String
  writeFail : Bool
  closeFail : Bool
  execFail : Bool

/-- Shallow embedding of `main` of `compiler_wrapper.c`: getrandom, then
`sprintf` of the scratch name, `fopen(f_name, "w")`, `fprintf` of the native
program name plus newline (its result is not inspected), `fclose` (checked),
then `execv`.  Each error check calls perror and exits 1; after a failed
execv control falls off the end of `main`, which in C returns 0. -/
def compilerRun (cfg : Config) (args : List String) (w : CWorld) : RunResult :=
  if w.randFail then
    ⟨[.reportError "tuscan: compiler wrapper: getrandom"], .exited 1, none, false⟩
  else
    match fopenW w.fileExisted w.fopenEnvFail with
    | .failed =>
      ⟨[.randomOk, .reportError "tuscan: compiler wrapper: fopen"], .exited 1, none, false⟩
    | .opened truncated =>
      let f_name := compilerScratchName w.randWord
      let payload := cfg.native_program ++ "\n"
      let content := if w.writeFail then "" else payload
      let evs := [Event.randomOk, .allocOk f_name, .writeAttempt payload (!w.writeFail)]
      if w.closeFail then
        ⟨evs ++ [.reportError "tuscan: compiler wrapper: fclose"], .exited 1,
          some (f_name, content), truncated⟩
      else
        let v := buildNewArgv cfg.toolchain_tool_path args
        if w.execFail then
          ⟨evs ++ [Event.closeOk, .execCall cfg.toolchain_tool_path v], .exited 0,
            some (f_name, content), truncated⟩
        else
          ⟨evs ++ [Event.closeOk, .execCall cfg.toolchain_tool_path v],
            .replaced cfg.toolchain_tool_path v, some (f_name, content), truncated⟩

/-- Shallow embedding of `main` of `tool_wrapper.c`: mkstemp, `dprintf` of
the native program name plus newline (its result is not inspected), `close`
(checked), then `execv`.  Each error check calls perror and returns 1; after
a failed execv control falls off the end of `main`, which in C returns 0.
mkstemp creates the file empty and exclusively, so no existing file is ever
overwritten on this path. -/
def toolRun (cfg : Config) (args : List String) (w : TWorld) : RunResult :=
  if w.allocFail then
    ⟨[.reportError "tuscan: mkstemp"], .exited 1, none, false⟩
  else
    let payload := cfg.native_program ++ "\n"
    let content := if w.writeFail then "" else payload
    let evs := [Event.allocOk w.allocName, .writeAttempt payload (!w.writeFail)]
    if w.closeFail then
      ⟨evs ++ [.reportError "tuscan: close"], .exited 1, some (w.allocName, content), false⟩
    else
      let v := buildNewArgv cfg.toolchain_tool_path args
      if w.execFail then
        ⟨evs ++ [Event.closeOk, .execCall cfg.toolchain_tool_path v], .exited 0,
          some (w.allocName, content), false⟩
      else
        ⟨evs ++ [Event.closeOk, .execCall cfg.toolchain_tool_path v],
          .replaced cfg.toolchain_tool_path v, some (w.allocName, content), false⟩

/-- Is this event the execv call? -/
def isExec : Event → Bool
  | .execCall _ _ => true
  | _ => false

/-- Is this event the write of the provenance record? -/
def isWrite : Event → Bool
  | .writeAttempt _ _ => true
  | _ => false

/-- Is this event the successful close of the scratch handle? -/
def isClose : Event → Bool
  | .closeOk => true
  | _ => false

/-- Is this event an error report to standard error? -/
def isReport : Event → Bool
  | .reportError _ => true
  | _ => false

/-- The ordering contract on a trace: whenever an execv call occurs, a record
write and a successful close both occur, the write strictly before the close
and the close strictly before the execv call — so the scratch handle is
already closed when the exec is performed.  Vacuously satisfied by traces
that never reach the exec. -/
def writeThenCloseThenExec (t : List Event) : Bool :=
  match t.findIdx? isExec with
  | none => true
  | some k =>
    match t.findIdx? isWrite, t.findIdx? isClose with
    | some i, some j => decide (i < j) && decide (j < k)
    | _, _ => false

end Tuscan

namespace Tuscan

/-- The length of the fuel-driven digit rendering is at most `k` digits when
the value is below `10 ^ k` and the fuel exceeds the value. -/
theorem natDigitsAux_length_le (fuel : Nat) : ∀ n k : Nat, n < fuel → 1 ≤ k →
    n < 10 ^ k → (natDigitsAux fuel n).length ≤ k := by
  induction fuel with
  | zero => intro n k hn _ _; omega
  | succ f ih =>
    intro n k hn hk hpow
    by_cases h10 : n < 10
    · simp [natDigitsAux, h10]
      omega
    · have hk1 : k ≠ 1 := by
        intro h1
        exact h10 (by simpa [h1] using hpow)
      have hdivn : n / 10 < n := Nat.div_lt_self (by omega) (by omega)
      have hdiv : n / 10 < f := by omega
      have hpow2 : n / 10 < 10 ^ (k - 1) := by
        apply Nat.div_lt_of_lt_mul
        have hs : 10 ^ (k - 1) * 10 = 10 ^ k := by
          rw [← pow_succ]
          congr 1
          omega
        omega
      have := ih (n / 10) (k - 1) hdiv (by omega) hpow2
      simp [natDigitsAux, h10, List.length_append]
      omega

/-- `natDigits n` prints at most `k` characters when `n < 10 ^ k`. -/
theorem natDigits_length_le (n k : Nat) (hk : 1 ≤ k) (h : n < 10 ^ k) :
    (natDigits n).length ≤ k :=
  natDigitsAux_length_le (n + 1) n k (by omega) hk h

/-- The signed reading of any word lies in the 32-bit range. -/
theorem toInt32_bounds (w : Nat) : -(2 ^ 31) ≤ toInt32 w ∧ toInt32 w < 2 ^ 31 := by
  have h1 : w % 2 ^ 32 < 2 ^ 32 := Nat.mod_lt _ (by norm_num)
  unfold toInt32
  split <;> constructor <;> push_cast <;> omega

/-- `sprintf "%d"` applied to `abs` of any in-range signed value stores at
most 11 characters: a possible sign and at most 10 digits. -/
theorem intReprChars_cAbs_length_le (i : Int) (h1 : -(2 ^ 31) ≤ i)
    (h2 : i < 2 ^ 31) : (intReprChars (cAbs i)).length ≤ 11 := by
  unfold cAbs
  split
  · have hneg : (-(2 ^ 31) : Int) < 0 := by norm_num
    simp only [intReprChars, if_pos hneg, List.length_cons]
    have habs : ((-(2 ^ 31) : Int)).natAbs = 2147483648 := by decide
    rw [habs]
    have := natDigits_length_le 2147483648 10 (by norm_num) (by norm_num)
    omega
  · have hnonneg : ¬ (|i| < 0) := by
      simp [abs_nonneg i, not_lt]
    simp only [intReprChars, if_neg hnonneg]
    have habs : |i|.natAbs = i.natAbs := by
      rcases abs_choice i with h | h <;> simp [h]
    rw [habs]
    have hlt : i.natAbs ≤ 2 ^ 31 := by
      rcases Int.natAbs_eq i with h | h <;> omega
    have := natDigits_length_le i.natAbs 10 (by norm_num) (by omega)
    omega

end Tuscan

namespace Tuscan

/-- Claim C10: for every 32-bit value of the first random word, the formatted
scratch-file name occupies at most 31 bytes including the terminating NUL, so
it fits the 32-byte `f_name` buffer; at the most negative signed value the
bound is attained with an 11-character rendering. -/
theorem c10_scratch_name_fits_buffer (w : Nat) :
    (compilerScratchName w).length + 1 ≤ 31 ∧
    (compilerScratchName 2147483648).length + 1 = 31 := by
  constructor
  · have hb := toInt32_bounds w
    have hr := intReprChars_cAbs_length_le (toInt32 w) hb.1 hb.2
    have hlen : (compilerScratchName w).length =
        19 + (intReprChars (cAbs (toInt32 w))).length := by
      simp [compilerScratchName, String.length, nameStem]
      omega
    omega
  · decide

/-- Claim C2 fails on the code: two distinct 32-bit random words produce the
same scratch-file name, because the name depends only on the absolute value
of the word read as a signed integer. -/
theorem c2_distinct_words_same_name :
    compilerScratchName 1 = compilerScratchName 4294967295 ∧
    (1 : Nat) ≠ 4294967295 := by
  constructor
  · decide
  · decide

end Tuscan

namespace Tuscan

/-- Claim C1 fails on the code: with the provenance record successfully
written and closed, a failed execv (missing or non-executable toolchain tool)
makes control fall off the end of `main`, so both wrappers exit with status 0
— a zero exit status that does not come from a successful image
replacement. -/
theorem c1_failed_exec_exits_zero :
    (compilerRun ⟨"/toolchain/bin/gcc", "gcc"⟩ ["wrap", "-v"]
        ⟨false, 7, false, false, false, false, true⟩).outcome = .exited 0 ∧
    Event.closeOk ∈ (compilerRun ⟨"/toolchain/bin/gcc", "gcc"⟩ ["wrap", "-v"]
        ⟨false, 7, false, false, false, false, true⟩).trace ∧
    (compilerRun ⟨"/toolchain/bin/gcc", "gcc"⟩ ["wrap", "-v"]
        ⟨false, 7, false, false, false, false, true⟩).record =
      some ("/tmp/tuscan-native-7", "gcc\n") ∧
    (toolRun ⟨"/toolchain/bin/gcc", "gcc"⟩ ["wrap", "-v"]
        ⟨false, "/tmp/tuscan-native-q1w2e3", false, false, true⟩).outcome = .exited 0 ∧
    Event.closeOk ∈ (toolRun ⟨"/toolchain/bin/gcc", "gcc"⟩ ["wrap", "-v"]
        ⟨false, "/tmp/tuscan-native-q1w2e3", false, false, true⟩).trace := by
  refine ⟨rfl, ?_, rfl, rfl, ?_⟩ <;> decide

/-- Claim C3: for a non-empty argument vector, the vector handed to execv has
the same length, carries the toolchain tool path at index 0, and carries the
input argument unchanged at every index from 1 on. -/
theorem c3_forwarded_vector (tool a : String) (rest : List String) :
    (buildNewArgv tool (a :: rest)).length = (a :: rest).length ∧
    (buildNewArgv tool (a :: rest)).get? 0 = some (some tool) ∧
    ∀ i : Nat, 1 ≤ i → i < (a :: rest).length →
      (buildNewArgv tool (a :: rest)).get? i = ((a :: rest).get? i).map some := by
  refine ⟨by simp [buildNewArgv], rfl, ?_⟩
  intro i h1 h2
  obtain ⟨j, rfl⟩ : ∃ j, i = j + 1 := ⟨i - 1, by omega⟩
  simp [buildNewArgv]

/-- Witness for C3: at toolchain tool `"P"` and input `["wrap", "-v"]` the
forwarded vector is `["P", "-v"]`. -/
theorem c3_forwarded_vector_witness :
    (buildNewArgv "P" ["wrap", "-v"]).length = 2 ∧
    (buildNewArgv "P" ["wrap", "-v"]).get? 0 = some (some "P") ∧
    (buildNewArgv "P" ["wrap", "-v"]).get? 1 = some (some "-v") :=
  ⟨(c3_forwarded_vector "P" "wrap" ["-v"]).1,
   (c3_forwarded_vector "P" "wrap" ["-v"]).2.1,
   by simpa using (c3_forwarded_vector "P" "wrap" ["-v"]).2.2 1 (by omega) (by simp)⟩

/-- Claim C4: in both wrappers, every environment in which the execv call is
reached has the record write strictly before the successful close and the
close strictly before the execv call, so the scratch handle is never still
open at the exec; environments that never reach the exec satisfy the contract
vacuously. -/
theorem c4_write_close_precede_exec (cfg : Config) (args : List String)
    (cw : CWorld) (tw : TWorld) :
    writeThenCloseThenExec (compilerRun cfg args cw).trace = true ∧
    writeThenCloseThenExec (toolRun cfg args tw).trace = true := by
  constructor
  · obtain ⟨rf, rw, oe, fe, wf, cf, ef⟩ := cw
    cases rf <;> cases oe <;> cases fe <;> cases wf <;> cases cf <;> cases ef <;> rfl
  · obtain ⟨af, nm, wf, cf, ef⟩ := tw
    cases af <;> cases wf <;> cases cf <;> cases ef <;> rfl

/-- Claim C5 fails on the code: the compiler wrapper's `fopen(f_name, "w")`
is not an exclusive create — when a file with the chosen name already exists
the open still succeeds, the existing file is silently truncated and
overwritten, and the run completes as if nothing were wrong. -/
theorem c5_existing_file_silently_overwritten :
    fopenW true false = .opened true ∧
    (compilerRun ⟨"/toolchain/bin/gcc", "gcc"⟩ ["wrap", "-v"]
        ⟨false, 1, false, true, false, false, false⟩).overwroteExisting = true ∧
    (compilerRun ⟨"/toolchain/bin/gcc", "gcc"⟩ ["wrap", "-v"]
        ⟨false, 1, false, true, false, false, false⟩).outcome =
      .replaced "/toolchain/bin/gcc" [some "/toolchain/bin/gcc", some "-v"] := by
  refine ⟨rfl, rfl, ?_⟩
  decide

/-- Claim C6 as stated is refuted at a concrete input: in the tool wrapper,
when the dprintf of the record fails but allocation and close succeed, no
error is reported, the exit-1 path is not taken, and the redirect is still
attempted. -/
theorem c6_counterexample_failed_write_still_redirects :
    (toolRun ⟨"/toolchain/bin/gcc", "gcc"⟩ ["wrap", "-v"]
        ⟨false, "/tmp/tuscan-native-q1w2e3", true, false, false⟩).outcome =
      .replaced "/toolchain/bin/gcc" [some "/toolchain/bin/gcc", some "-v"] ∧
    ((toolRun ⟨"/toolchain/bin/gcc", "gcc"⟩ ["wrap", "-v"]
        ⟨false, "/tmp/tuscan-native-q1w2e3", true, false, false⟩).trace.filter isReport) = [] ∧
    ((toolRun ⟨"/toolchain/bin/gcc", "gcc"⟩ ["wrap", "-v"]
        ⟨false, "/tmp/tuscan-native-q1w2e3", true, false, false⟩).trace.filter isExec).isEmpty = false := by
  refine ⟨?_, rfl, rfl⟩
  decide

/-- Claim C6 amended: a failed scratch-file allocation or a failed close is
reported to standard error and exits with status 1 without attempting the
redirect, in both wrappers; the write's result, however, is not inspected, so
a failed write with a succeeding allocation and close still reaches the
execv call. -/
theorem c6_alloc_close_failures_fatal (cfg : Config) (args : List String)
    (rw : Nat) (oe fe wf cf ef : Bool) (nm : String) :
    ((compilerRun cfg args ⟨true, rw, oe, fe, wf, cf, ef⟩).outcome = .exited 1 ∧
      (compilerRun cfg args ⟨true, rw, oe, fe, wf, cf, ef⟩).trace.filter isExec = [] ∧
      ((compilerRun cfg args ⟨true, rw, oe, fe, wf, cf, ef⟩).trace.filter isReport).isEmpty = false) ∧
    ((compilerRun cfg args ⟨false, rw, true, fe, wf, cf, ef⟩).outcome = .exited 1 ∧
      (compilerRun cfg args ⟨false, rw, true, fe, wf, cf, ef⟩).trace.filter isExec = [] ∧
      ((compilerRun cfg args ⟨false, rw, true, fe, wf, cf, ef⟩).trace.filter isReport).isEmpty = false) ∧
    ((compilerRun cfg args ⟨false, rw, false, fe, wf, true, ef⟩).outcome = .exited 1 ∧
      (compilerRun cfg args ⟨false, rw, false, fe, wf, true, ef⟩).trace.filter isExec = [] ∧
      ((compilerRun cfg args ⟨false, rw, false, fe, wf, true, ef⟩).trace.filter isReport).isEmpty = false) ∧
    ((toolRun cfg args ⟨true, nm, wf, cf, ef⟩).outcome = .exited 1 ∧
      (toolRun cfg args ⟨true, nm, wf, cf, ef⟩).trace.filter isExec = [] ∧
      ((toolRun cfg args ⟨true, nm, wf, cf, ef⟩).trace.filter isReport).isEmpty = false) ∧
    ((toolRun cfg args ⟨false, nm, wf, true, ef⟩).outcome = .exited 1 ∧
      (toolRun cfg args ⟨false, nm, wf, true, ef⟩).trace.filter isExec = [] ∧
      ((toolRun cfg args ⟨false, nm, wf, true, ef⟩).trace.filter isReport).isEmpty = false) ∧
    ((compilerRun cfg args ⟨false, rw, false, fe, true, false, ef⟩).trace.filter isExec).isEmpty = false ∧
    ((toolRun cfg args ⟨false, nm, true, false, ef⟩).trace.filter isExec).isEmpty = false := by
  cases ef <;>
    exact ⟨⟨rfl, rfl, rfl⟩, ⟨rfl, rfl, rfl⟩, ⟨rfl, rfl, rfl⟩, ⟨rfl, rfl, rfl⟩,
      ⟨rfl, rfl, rfl⟩, rfl, rfl⟩

/-- Claim C7: on every fully successful run of either wrapper the scratch
record's content is exactly the native program name followed by one newline,
and the process image is replaced by the toolchain tool invoked with the
forwarded vector; in particular tool `"P"` on input `["wrap", "-v"]` is
handed the vector `["P", "-v"]`. -/
theorem c7_success_record_and_redirect (cfg : Config) (args : List String)
    (rw : Nat) (fe : Bool) (nm : String) :
    (compilerRun cfg args ⟨false, rw, false, fe, false, false, false⟩).record =
      some (compilerScratchName rw, cfg.native_program ++ "\n") ∧
    (compilerRun cfg args ⟨false, rw, false, fe, false, false, false⟩).outcome =
      .replaced cfg.toolchain_tool_path (buildNewArgv cfg.toolchain_tool_path args) ∧
    (toolRun cfg args ⟨false, nm, false, false, false⟩).record =
      some (nm, cfg.native_program ++ "\n") ∧
    (toolRun cfg args ⟨false, nm, false, false, false⟩).outcome =
      .replaced cfg.toolchain_tool_path (buildNewArgv cfg.toolchain_tool_path args) ∧
    buildNewArgv "P" ["wrap", "-v"] = [some "P", some "-v"] :=
  ⟨rfl, rfl, rfl, rfl, by decide⟩

/-- Claim C8: for every non-empty argument vector, the buffer both wrappers
hand to execv holds exactly `argc` entries, every entry is a real (non-NULL)
pointer, and no NULL sentinel is present — so execv's precondition of a
NULL-terminated vector is not met. -/
theorem c8_no_null_sentinel (tool a : String) (rest : List String) :
    (buildNewArgv tool (a :: rest)).length = (a :: rest).length ∧
    (buildNewArgv tool (a :: rest)).all Option.isSome = true ∧
    execvNullTerm (buildNewArgv tool (a :: rest)) = false := by
  refine ⟨by simp [buildNewArgv], ?_, ?_⟩
  · simp [buildNewArgv, List.all_map, Function.comp]
  · simp [execvNullTerm, buildNewArgv, List.contains]

/-- Claim C9: the template the tool wrapper passes to mkstemp is an immutable
string literal, while mkstemp's contract is to overwrite the template's
trailing placeholder in place; under a faithful model of the primitive the
call therefore faults for every retry budget and every state of the
temporary directory, and its success branch is unreachable. -/
theorem c9_mkstemp_template_immutable (candidates : List String)
    (taken : String → Bool) :
    toolTemplate.writable = false ∧
    mkstemp toolTemplate candidates taken = .fault := by
  exact ⟨rfl, rfl⟩

end Tuscan

namespace Tuscan

/-- Witness for C4: on a concrete fully successful environment, the traces of
both wrappers satisfy the write-close-exec ordering contract. -/
theorem c4_write_close_precede_exec_witness :
    writeThenCloseThenExec (compilerRun ⟨"/toolchain/bin/gcc", "gcc"⟩ ["wrap", "-v"]
      ⟨false, 7, false, false, false, false, false⟩).trace = true ∧
    writeThenCloseThenExec (toolRun ⟨"/toolchain/bin/gcc", "gcc"⟩ ["wrap", "-v"]
      ⟨false, "/tmp/tuscan-native-q1w2e3", false, false, false⟩).trace = true :=
  c4_write_close_precede_exec ⟨"/toolchain/bin/gcc", "gcc"⟩ ["wrap", "-v"]
    ⟨false, 7, false, false, false, false, false⟩
    ⟨false, "/tmp/tuscan-native-q1w2e3", false, false, false⟩

/-- Witness for C6 (amended): at a concrete input a failed getrandom exits 1,
reports, and never reaches the exec. -/
theorem c6_alloc_close_failures_fatal_witness :
    (compilerRun ⟨"/toolchain/bin/gcc", "gcc"⟩ ["wrap", "-v"]
      ⟨true, 7, false, false, false, false, false⟩).outcome = .exited 1 ∧
    ((compilerRun ⟨"/toolchain/bin/gcc", "gcc"⟩ ["wrap", "-v"]
      ⟨true, 7, false, false, false, false, false⟩).trace.filter isExec) = [] ∧
    ((compilerRun ⟨"/toolchain/bin/gcc", "gcc"⟩ ["wrap", "-v"]
      ⟨true, 7, false, false, false, false, false⟩).trace.filter isReport).isEmpty = false :=
  (c6_alloc_close_failures_fatal ⟨"/toolchain/bin/gcc", "gcc"⟩ ["wrap", "-v"]
    7 false false false false false "/tmp/tuscan-native-q1w2e3").1

/-- Witness for C7: a concrete successful tool-wrapper run records the native
program name plus newline and redirects to the concrete forwarded vector. -/
theorem c7_success_record_and_redirect_witness :
    (toolRun ⟨"P", "S"⟩ ["wrap", "-v"]
      ⟨false, "/tmp/tuscan-native-q1w2e3", false, false, false⟩).record =
      some ("/tmp/tuscan-native-q1w2e3", "S" ++ "\n") ∧
    (toolRun ⟨"P", "S"⟩ ["wrap", "-v"]
      ⟨false, "/tmp/tuscan-native-q1w2e3", false, false, false⟩).outcome =
      .replaced "P" (buildNewArgv "P" ["wrap", "-v"]) ∧
    buildNewArgv "P" ["wrap", "-v"] = [some "P", some "-v"] :=
  ⟨(c7_success_record_and_redirect ⟨"P", "S"⟩ ["wrap", "-v"] 7 false
      "/tmp/tuscan-native-q1w2e3").2.2.1,
   (c7_success_record_and_redirect ⟨"P", "S"⟩ ["wrap", "-v"] 7 false
      "/tmp/tuscan-native-q1w2e3").2.2.2.1,
   (c7_success_record_and_redirect ⟨"P", "S"⟩ ["wrap", "-v"] 7 false
      "/tmp/tuscan-native-q1w2e3").2.2.2.2⟩

/-- Witness for C8: the concrete forwarded vector for tool `"P"` and input
`["wrap", "-v"]` has two entries, all non-NULL, and no NULL sentinel. -/
theorem c8_no_null_sentinel_witness :
    (buildNewArgv "P" ["wrap", "-v"]).length = (["wrap", "-v"] : List String).length ∧
    (buildNewArgv "P" ["wrap", "-v"]).all Option.isSome = true ∧
    execvNullTerm (buildNewArgv "P" ["wrap", "-v"]) = false :=
  c8_no_null_sentinel "P" "wrap" ["-v"]

/-- Witness for C9: with a concrete retry budget and an empty temporary
directory, the mkstemp call of the tool wrapper still faults. -/
theorem c9_mkstemp_template_immutable_witness :
    toolTemplate.writable = false ∧
    mkstemp toolTemplate ["q1w2e3"] (fun _ => false) = .fault :=
  c9_mkstemp_template_immutable ["q1w2e3"] (fun _ => false)

/-- Witness for C10: at the word whose signed reading is the most negative
32-bit value, the name length bound is attained. -/
theorem c10_scratch_name_fits_buffer_witness :
    (compilerScratchName 2147483648).length + 1 ≤ 31 ∧
    (compilerScratchName 2147483648).length + 1 = 31 :=
  c10_scratch_name_fits_buffer 2147483648

end Tuscan
